import Mathlib

/-!
Shallow embedding of `src/server.py` (Danbooru-Analytics MCP server).

Records carry a creation timestamp and an optional tag string (the
`created_at` and `tag_string` columns; a missing tag string models a null
cell, which `str.contains(..., na=False)` treats as a non-match).

Timestamps are modelled as calendar instants `(y, m, d, sod)` where `sod`
is the second of the day; for valid calendar fields the lexicographic
order on these tuples coincides with the chronological order pandas uses
when comparing the tz-aware `created_at` column with a parsed date string
such as "2016-12-31" (which denotes midnight of that day).

Python's float arithmetic on the small exact quantities appearing here is
modelled with rationals.  Matplotlib plotting and file output are external
I/O and are not part of the analytical results being modelled; the tools'
formatted message strings are modelled as structured `Except` values.
-/

/-- Calendar instant: year, month, day, second of day. -/
structure Timestamp where
  y : Nat
  m : Nat
  d : Nat
  sod : Nat
deriving DecidableEq, Repr

/-- Lexicographic order on calendar instants; for valid calendar fields this
is chronological order, matching the pandas comparison of `created_at`
against parsed date strings. -/
def tsLe (a b : Timestamp) : Bool :=
  decide (a.y < b.y) ||
    (decide (a.y = b.y) &&
      (decide (a.m < b.m) ||
        (decide (a.m = b.m) &&
          (decide (a.d < b.d) ||
            (decide (a.d = b.d) && decide (a.sod ≤ b.sod))))))

/-- One row of the dataset: `created_at` and `tag_string` columns. -/
structure Record where
  created_at : Timestamp
  tag_string : Option String
deriving DecidableEq, Repr

/-- Month bucket index of an instant (months since year 0).  The pandas
resample("ME") buckets are labelled by month-end dates; this index is
order-isomorphic to those labels. -/
def monthIdx (t : Timestamp) : Nat :=
  t.y * 12 + (t.m - 1)

/-- Substring test on character lists: `needle` occurs contiguously in
`hay`.  Models Python's `in` / pandas `str.contains(..., regex=False)`. -/
def containsSub (needle : List Char) : List Char → Bool
  | [] => needle.isEmpty
  | c :: rest => needle.isPrefixOf (c :: rest) || containsSub needle rest

/-- String containment, `pat in s` in Python. -/
def strContains (s pat : String) : Bool :=
  containsSub pat.toList s.toList

/-- String suffix test, `s.endswith(pat)` in Python. -/
def strEndsWith (s pat : String) : Bool :=
  pat.toList.isSuffixOf s.toList

/-- Does the record's tag string contain `pat` as a substring?  A null tag
string never matches (`na=False`). -/
def tagMatch (pat : String) (r : Record) : Bool :=
  match r.tag_string with
  | none => false
  | some s => strContains s pat

/-- SPECIFIC_BANS from server.py: the exact-match denylist. -/
def SPECIFIC_BANS : List String :=
  ["star_(symbol)", "star_(sky)", "pom_pom_(clothes)", "shrug_(clothing)",
   "poke_ball_(basic)", "vision_(genshin_impact)", "sensei_(blue_archive)",
   "idolmaster_(classic)", "mahou_shoujo_madoka_magica_(anime)",
   "admiral_(kancolle)", "producer_(idolmaster)", "commander_(azur_lane)",
   "doctor_(arknights)", "traveler_(genshin_impact)", "trainer_(pokemon)",
   "summoner_(fire_emblem)", "gudako_(fate/grand_order)", "unknown_(series)",
   "check_commentary_(request)", "translation_(request)", "original_(character)",
   "spot_the_difference", "comic", "monochrome", "heart", "exclamation_point"]

/-- BAD_SUFFIXES from server.py: banned qualifier suffixes. -/
def BAD_SUFFIXES : List String :=
  ["_(series)", "_(medium)", "_(style)", "_(source)",
   "_(cosplay)", "_(object)", "_(group)", "_(production)",
   "_(creature)", "_(game)", "_(request)", "_(event)",
   "_(art_style)", "_(artist)", "_(lore)", "_(meta)",
   "_(costume)", "_(parody)"]

/-- VIPS from server.py: the allowlist of entities without paren qualifiers. -/
def VIPS : List String :=
  ["hatsune_miku", "hakurei_reimu", "kirisame_marisa",
   "remilia_scarlet", "flandre_scarlet", "kochiya_sanae",
   "izayoi_sakuya", "konpaku_youmu", "cirno", "kagamine_rin"]

/-- The entity classifier as it appears inside the extraction loops of
`get_top_waifus_by_year` (lines 141-147) and `analyze_tag_driver`
(lines 277-282): skip tags in SPECIFIC_BANS, then require VIP membership
or the `name_(qualifier)` shape, then reject BAD_SUFFIXES endings. -/
def classify (tag : String) : Bool :=
  if SPECIFIC_BANS.contains tag then false
  else
    let is_vip := VIPS.contains tag
    let has_parens := strContains tag "_(" && strEndsWith tag ")"
    (is_vip || has_parens) && !(BAD_SUFFIXES.any (fun s => strEndsWith tag s))

/-- Tag tokens of a record subset: join the non-null tag strings with
spaces and split on whitespace, as in
`" ".join(subset['tag_string'].dropna()).split()`. -/
def recordTokens (recs : List Record) : List String :=
  ((recs.filterMap (fun r => r.tag_string)).map
      (fun s => (s.splitOn " ").filter (fun t => !t.isEmpty))).flatten

/-- Frequency table of a token multiset, keyed by first occurrence, as a
`collections.Counter` holds it. -/
def freqPairs (tokens : List String) : List (String × Nat) :=
  tokens.eraseDups.map (fun t => (t, tokens.count t))

/-- `Counter.most_common(n)`: the frequency table sorted by descending
count (stable, so ties keep first-encountered order), truncated to `n`. -/
def mostCommon (n : Nat) (tokens : List String) : List (String × Nat) :=
  ((freqPairs tokens).mergeSort (fun a b => decide (b.2 ≤ a.2))).take n

/-- The accumulator loop shared by `get_top_waifus_by_year` (lines 140-148)
and `analyze_tag_driver` (lines 276-287): walk the candidate pool in order,
append each pair whose tag passes `keep`, and stop as soon as `k` results
have been collected. -/
def pickTopAux (keep : String → Bool) (k : Nat) :
    List (String × Nat) → List (String × Nat) → List (String × Nat)
  | acc, [] => acc
  | acc, p :: rest =>
    let acc2 := if keep p.1 then acc ++ [p] else acc
    if acc2.length = k then acc2 else pickTopAux keep k acc2 rest

/-- Top-entity extraction over a candidate pool. -/
def pickTop (keep : String → Bool) (k : Nat) (pool : List (String × Nat)) :
    List (String × Nat) :=
  pickTopAux keep k [] pool

/-- A small concrete candidate pool used to instantiate general theorems. -/
def demoPool : List (String × Nat) :=
  [("hatsune_miku", 5), ("fate_(series)", 4), ("rem_(re:zero)", 3)]

/-- Failure outcomes of the tools.  Each tool in server.py returns a
distinct message string; the error kinds are modelled structurally. -/
inductive QueryError where
  | datasetUnavailable
  | invalidInput
  | noData
  | notFound (tag : String)
deriving DecidableEq, Repr

/-- Minimum of a non-empty list of naturals (head as seed), as pandas `min`
over a series. -/
def listMin : List Nat → Nat
  | [] => 0
  | x :: xs => xs.foldl Nat.min x

/-- Maximum of a non-empty list of naturals (head as seed). -/
def listMax : List Nat → Nat
  | [] => 0
  | x :: xs => xs.foldl Nat.max x

/-- `subset.set_index('created_at').resample('ME').size()`: one bucket per
calendar month from the earliest to the latest record inclusive (months
without records appear with count 0), each with the number of records whose
timestamp falls in that month. -/
def monthlyBuckets (recs : List Record) : List (Nat × Nat) :=
  match recs with
  | [] => []
  | r :: rs =>
    let ms := (r :: rs).map (fun x => monthIdx x.created_at)
    let lo := listMin ms
    let hi := listMax ms
    (List.range (hi + 1 - lo)).map (fun i => (lo + i, ms.count (lo + i)))

/-- `monthly.idxmax()` paired with `monthly.max()`: the first bucket
holding the maximum count. -/
def peakBucket : List (Nat × Nat) → Nat × Nat
  | [] => (0, 0)
  | b :: bs => bs.foldl (fun best x => if best.2 < x.2 then x else best) b

/-- The year mask of `get_top_waifus_by_year` and `analyze_tag_driver`:
`created_at >= "{year}-01-01"` and `created_at <= "{year}-12-31"`, where the
parsed bounds denote midnight of their day. -/
def dateMask (year : Nat) (r : Record) : Bool :=
  tsLe ⟨year, 1, 1, 0⟩ r.created_at && tsLe r.created_at ⟨year, 12, 31, 0⟩

/-- The record subset a year-scoped tool analyzes: rows inside the date
mask whose tag string contains `tagReq`. -/
def yearFilter (recs : List Record) (year : Nat) (tagReq : String) :
    List Record :=
  recs.filter (fun r => dateMask year r && tagMatch tagReq r)

/-- YearInput: `2005 <= year <= 2025`. -/
def yearInputValid (year : Nat) : Bool :=
  decide (2005 ≤ year) && decide (year ≤ 2025)

/-- TagInput / CompareInput field rule: `min_length=2`. -/
def tagInputValid (tag : String) : Bool :=
  decide (2 ≤ tag.length)

/-- `get_top_waifus_by_year(year)`: dataset check, year validation, filter
to the year and to rows containing "1girl", then the top 10 classified
tags out of the 5000 most common tokens.  The formatted ranking string is
modelled by the list of surviving tags in order. -/
def getTopWaifusByYear (recs : List Record) (year : Nat) :
    Except QueryError (List String) :=
  if recs.isEmpty then .error .datasetUnavailable
  else if !yearInputValid year then .error .invalidInput
  else
    let subset := yearFilter recs year "1girl"
    if subset.isEmpty then .error .noData
    else
      .ok ((pickTop classify 10 (mostCommon 5000 (recordTokens subset))).map
        Prod.fst)

/-- Result of `get_character_stats`: total artworks, peak month with its
count, and the activity label. -/
structure StatsResult where
  total : Nat
  peak : Nat × Nat
  label : String
deriving DecidableEq, Repr

/-- `get_character_stats(character_tag)`: dataset check, substring filter,
monthly resample, peak, and the activity label comparing the last bucket
against the fixed threshold 20. -/
def getCharacterStats (recs : List Record) (tag : String) :
    Except QueryError StatsResult :=
  if recs.isEmpty then .error .datasetUnavailable
  else
    let subset := recs.filter (tagMatch tag)
    if subset.isEmpty then .error (.notFound tag)
    else
      let monthly := monthlyBuckets subset
      .ok ⟨subset.length, peakBucket monthly,
        if 20 < (monthly.getLastD (0, 0)).2 then "Still Active"
        else "Declining"⟩

/-- Result of `calculate_ship_dependency`. -/
structure ShipResult where
  baseTotal : Nat
  jointCount : Nat
  percentage : ℚ
deriving DecidableEq, Repr

/-- `calculate_ship_dependency(char1, char2)`: the row-index sets selected
by the two substring masks.  Row indices are distinct, so the size of
`set1` and of the intersection equal the counts of rows matching `char1`
resp. both tags; the float percentage is modelled as a rational. -/
def shipDependency (recs : List Record) (c1 c2 : String) :
    Except QueryError ShipResult :=
  if recs.isEmpty then .error .datasetUnavailable
  else
    let set1 := recs.filter (tagMatch c1)
    if set1.isEmpty then .error (.notFound c1)
    else
      let joint := (recs.filter (fun r => tagMatch c1 r && tagMatch c2 r)).length
      .ok ⟨set1.length, joint, (joint : ℚ) / (set1.length : ℚ) * 100⟩

/-- `analyze_tag_driver(year, tag)`: like the year tool but filtered on
`tag`, keeping the top 5 classified tags other than `tag` itself out of
the 2000 most common tokens, each with its count. -/
def analyzeTagDriver (recs : List Record) (year : Nat) (tag : String) :
    Except QueryError (List (String × Nat)) :=
  if recs.isEmpty then .error .datasetUnavailable
  else if !yearInputValid year then .error .invalidInput
  else
    let subset := yearFilter recs year tag
    if subset.isEmpty then .error .noData
    else
      .ok (pickTop (fun t => !(t == tag) && classify t) 5
        (mostCommon 2000 (recordTokens subset)))

/-- Result of `compare_characters`. -/
structure CompareResult where
  total1 : Nat
  total2 : Nat
  winner : String
deriving DecidableEq, Repr

/-- `compare_characters(char1, char2)`: totals via the substring masks,
per-entity not-found failures, and
`winner = char1 if total1 > total2 else char2`. -/
def compareCharacters (recs : List Record) (c1 c2 : String) :
    Except QueryError CompareResult :=
  if recs.isEmpty then .error .datasetUnavailable
  else
    let t1 := (recs.filter (tagMatch c1)).length
    let t2 := (recs.filter (tagMatch c2)).length
    if t1 = 0 then .error (.notFound c1)
    else if t2 = 0 then .error (.notFound c2)
    else .ok ⟨t1, t2, if t2 < t1 then c1 else c2⟩

/-- A fixed instant used by the concrete demo datasets. -/
def ts0 : Timestamp := ⟨2016, 5, 10, 0⟩

/-- Demo dataset for the co-occurrence scenario: 100 rows match "A", 40 of
which also match "B". -/
def shipDemo : List Record :=
  List.replicate 60 ⟨ts0, some "1girl A"⟩ ++
    List.replicate 40 ⟨ts0, some "1girl A B"⟩

/-- Demo dataset for the comparison scenario: totals 100 versus 80. -/
def compareDemo : List Record :=
  List.replicate 100 ⟨ts0, some "1girl A"⟩ ++
    List.replicate 80 ⟨ts0, some "1girl B"⟩

/-- Demo dataset where both compared tags match the same 4 rows. -/
def tieDemo : List Record :=
  List.replicate 4 ⟨ts0, some "1girl A B"⟩

/-- Demo dataset with one Dec-31 afternoon record of the year 2016. -/
def dec31Demo : List Record :=
  [⟨⟨2016, 12, 31, 43200⟩, some "1girl hatsune_miku"⟩]

/-- Demo dataset spanning three months (the middle one empty). -/
def monthDemo : List Record :=
  [⟨⟨2016, 1, 5, 0⟩, some "1girl a"⟩, ⟨⟨2016, 3, 2, 0⟩, none⟩]

/-- Demo dataset with a single tagged record. -/
def singletonDemo : List Record :=
  [⟨ts0, some "x"⟩]

/-- C1: every tag in the exact denylist is rejected by the classifier,
with no further condition on VIP membership or paren shape. -/
theorem denylist_rejects (t : String) (h : t ∈ SPECIFIC_BANS) :
    classify t = false := by
  have hc : SPECIFIC_BANS.contains t = true := by
    simpa using h
  simp only [classify]
  rw [if_pos hc]

/-- Witness for C1 at the concrete banned tag "comic" (which the denylist
holds even though it has no paren shape). -/
theorem denylist_rejects_witness :
    ("comic" ∈ SPECIFIC_BANS) ∧ classify "comic" = false :=
  ⟨by decide, denylist_rejects "comic" (by decide)⟩

/-- C2: a non-VIP tag of shape `name_(qualifier)` ending in one of the
banned suffixes is rejected by the classifier. -/
theorem bad_suffix_rejects (t : String) (hvip : t ∉ VIPS)
    (hshape : strContains t "_(" = true) (hclose : strEndsWith t ")" = true)
    (hsuf : ∃ s ∈ BAD_SUFFIXES, strEndsWith t s = true) :
    classify t = false := by
  obtain ⟨s, hs, hse⟩ := hsuf
  have hany : BAD_SUFFIXES.any (fun s => strEndsWith t s) = true :=
    List.any_eq_true.mpr ⟨s, hs, hse⟩
  by_cases hban : SPECIFIC_BANS.contains t = true
  · simp only [classify]
    rw [if_pos hban]
  · simp only [classify]
    rw [if_neg hban]
    simp [hany]

/-- Witness for C2 at the concrete tag "fate_(series)". -/
theorem bad_suffix_rejects_witness :
    ("fate_(series)" ∉ VIPS) ∧ classify "fate_(series)" = false :=
  ⟨by decide,
   bad_suffix_rejects "fate_(series)" (by decide) (by decide) (by decide)
     ⟨"_(series)", by decide, by decide⟩⟩

/-- The accumulator loop equals "take k of the kept candidates" whenever the
accumulator is still below the cutoff. -/
theorem pickTopAux_eq (keep : String → Bool) (k : Nat) :
    ∀ (pool acc : List (String × Nat)), acc.length < k →
      pickTopAux keep k acc pool =
        acc ++ (pool.filter (fun p => keep p.1)).take (k - acc.length) := by
  intro pool
  induction pool with
  | nil =>
    intro acc h
    simp [pickTopAux]
  | cons p rest ih =>
    intro acc h
    by_cases hk : keep p.1 = true
    · have hfil : (p :: rest).filter (fun q => keep q.1) =
          p :: rest.filter (fun q => keep q.1) := by
        simp [List.filter_cons, hk]
      by_cases hlen : acc.length + 1 = k
      · have hstep : pickTopAux keep k acc (p :: rest) = acc ++ [p] := by
          simp [pickTopAux, hk, hlen]
        have hk1 : k - acc.length = 1 := by omega
        rw [hstep, hfil, hk1]
        simp
      · have hstep : pickTopAux keep k acc (p :: rest) =
            pickTopAux keep k (acc ++ [p]) rest := by
          simp [pickTopAux, hk, hlen]
        have hlt : (acc ++ [p]).length < k := by
          simp only [List.length_append, List.length_cons, List.length_nil]
          omega
        rw [hstep, ih (acc ++ [p]) hlt, hfil]
        have hsucc : k - acc.length = (k - (acc ++ [p]).length) + 1 := by
          simp only [List.length_append, List.length_cons, List.length_nil]
          omega
        rw [hsucc, List.take_succ_cons]
        simp
    · have hfil : (p :: rest).filter (fun q => keep q.1) =
          rest.filter (fun q => keep q.1) := by
        simp [List.filter_cons, hk]
      have hlen : ¬(acc.length = k) := by omega
      have hstep : pickTopAux keep k acc (p :: rest) = pickTopAux keep k acc rest := by
        simp [pickTopAux, hk, hlen]
      rw [hstep, ih acc h, hfil]

/-- C3: over any count-descending frequency pool with distinct keys, and any
predicate `keep` at least as strict as the classifier, the extraction
returns at most `k` pairs, with pairwise-distinct tags, all classified as
entities, in descending count order; its length is exactly the smaller of
`k` and the number of qualifying candidates in the pool, so a short pool
yields a short result rather than an error. -/
theorem topEntities_spec (pool : List (String × Nat)) (keep : String → Bool)
    (k : Nat) (hnd : (pool.map Prod.fst).Nodup)
    (hsort : pool.Pairwise (fun a b => b.2 ≤ a.2))
    (hcls : ∀ t, keep t = true → classify t = true) (hk : 0 < k) :
    (pickTop keep k pool).length ≤ k ∧
    ((pickTop keep k pool).map Prod.fst).Nodup ∧
    (∀ p ∈ pickTop keep k pool, classify p.1 = true) ∧
    (pickTop keep k pool).Pairwise (fun a b => b.2 ≤ a.2) ∧
    (pickTop keep k pool).length =
      min k ((pool.filter (fun p => keep p.1)).length) := by
  have heq : pickTop keep k pool = (pool.filter (fun p => keep p.1)).take k := by
    have h0 : ([] : List (String × Nat)).length < k := by simpa using hk
    have := pickTopAux_eq keep k pool [] h0
    simpa [pickTop] using this
  have hsub : List.Sublist (pickTop keep k pool) pool := by
    rw [heq]
    exact (List.take_sublist _ _).trans (List.filter_sublist _)
  refine ⟨?_, ?_, ?_, ?_, ?_⟩
  · rw [heq, List.length_take]
    exact Nat.min_le_left _ _
  · exact hnd.sublist (hsub.map Prod.fst)
  · intro p hp
    have hp2 : p ∈ pool.filter (fun p => keep p.1) := by
      rw [heq] at hp
      exact List.mem_of_mem_take hp
    exact hcls p.1 (List.mem_filter.mp hp2).2
  · exact hsort.sublist hsub
  · rw [heq, List.length_take]

/-- Witness for C3 on a concrete three-candidate pool with `k = 10`. -/
theorem topEntities_spec_witness :
    (pickTop classify 10 demoPool).length ≤ 10 ∧
    ((pickTop classify 10 demoPool).map Prod.fst).Nodup ∧
    (∀ p ∈ pickTop classify 10 demoPool, classify p.1 = true) ∧
    (pickTop classify 10 demoPool).Pairwise (fun a b => b.2 ≤ a.2) ∧
    (pickTop classify 10 demoPool).length =
      min 10 ((demoPool.filter (fun p => classify p.1)).length) :=
  topEntities_spec demoPool classify 10 (by decide) (by decide)
    (fun _ h => h) (by decide)

/-- Counterexample for C4: a record created in the afternoon of December
31, 2016 lies in year 2016 and carries the required co-tag, yet the year
mask excludes it — the tool even reports that 2016 holds no data at all. -/
theorem year_filter_drops_dec31 :
    (⟨⟨2016, 12, 31, 43200⟩, some "1girl hatsune_miku"⟩ : Record).created_at.y
        = 2016 ∧
    tagMatch "1girl"
        ⟨⟨2016, 12, 31, 43200⟩, some "1girl hatsune_miku"⟩ = true ∧
    yearFilter dec31Demo 2016 "1girl" = [] ∧
    getTopWaifusByYear dec31Demo 2016 = .error .noData :=
  ⟨rfl, rfl, rfl, rfl⟩

/-- Amended C4: for a record with valid calendar fields, membership in the
analysis subset of year `y` holds exactly when the record lies in year `y`
no later than midnight at the start of December 31 (later Dec-31 instants
are excluded) and its tag string contains "1girl". -/
theorem year_filter_membership (recs : List Record) (y : Nat) (r : Record)
    (hm1 : 1 ≤ r.created_at.m) (hm2 : r.created_at.m ≤ 12)
    (hd1 : 1 ≤ r.created_at.d) (hd2 : r.created_at.d ≤ 31) :
    r ∈ yearFilter recs y "1girl" ↔
      r ∈ recs ∧ r.created_at.y = y ∧
      ¬(r.created_at.m = 12 ∧ r.created_at.d = 31 ∧ 0 < r.created_at.sod) ∧
      tagMatch "1girl" r = true := by
  unfold yearFilter dateMask tsLe
  rw [List.mem_filter]
  simp only [Bool.and_eq_true, Bool.or_eq_true, decide_eq_true_eq]
  constructor
  · rintro ⟨hmem, ⟨hlow, hup⟩, ht⟩
    exact ⟨hmem, by omega, by omega, ht⟩
  · rintro ⟨hmem, hy, hne, ht⟩
    exact ⟨hmem, ⟨by omega, by omega⟩, ht⟩

/-- Witness for the amended C4 on a one-record May dataset. -/
theorem year_filter_membership_witness :
    ((⟨ts0, some "1girl"⟩ : Record) ∈
        yearFilter [⟨ts0, some "1girl"⟩] 2016 "1girl" ↔
      (⟨ts0, some "1girl"⟩ : Record) ∈ [(⟨ts0, some "1girl"⟩ : Record)] ∧
      ts0.y = 2016 ∧ ¬(ts0.m = 12 ∧ ts0.d = 31 ∧ 0 < ts0.sod) ∧
      tagMatch "1girl" ⟨ts0, some "1girl"⟩ = true) :=
  year_filter_membership [⟨ts0, some "1girl"⟩] 2016 ⟨ts0, some "1girl"⟩
    (by decide) (by decide) (by decide) (by decide)

/-- C5: on a loaded dataset the co-occurrence tool fails with the not-found
error exactly when no record matches the base tag; a success carries the
base count, the joint count, and `joint / base * 100`; on the concrete
dataset with 100 base matches of which 40 are joint, the result is 40%. -/
theorem shipDependency_spec (recs : List Record) (c1 c2 : String)
    (h : recs ≠ []) :
    (shipDependency recs c1 c2 = .error (.notFound c1) ↔
      recs.filter (tagMatch c1) = []) ∧
    (∀ res, shipDependency recs c1 c2 = .ok res →
      res.baseTotal = (recs.filter (tagMatch c1)).length ∧
      res.jointCount =
        (recs.filter (fun r => tagMatch c1 r && tagMatch c2 r)).length ∧
      res.percentage = (res.jointCount : ℚ) / (res.baseTotal : ℚ) * 100) ∧
    shipDependency shipDemo "A" "B" = .ok ⟨100, 40, 40⟩ := by
  have hne : recs.isEmpty = false := by simpa using h
  refine ⟨?_, ?_, ?_⟩
  · constructor
    · intro hErr
      by_cases hs : (recs.filter (tagMatch c1)).isEmpty = true
      · exact List.isEmpty_iff.mp hs
      · exfalso
        revert hErr
        simp [shipDependency, hne, hs]
    · intro hNil
      have hs : (recs.filter (tagMatch c1)).isEmpty = true := by
        simp [hNil]
      simp [shipDependency, hne, hs]
  · intro res hok
    by_cases hs : (recs.filter (tagMatch c1)).isEmpty = true
    · revert hok
      simp [shipDependency, hne, hs]
    · simp only [shipDependency, hne, Bool.false_eq_true, if_false,
        hs] at hok
      rw [Except.ok.injEq] at hok
      rw [← hok]
      exact ⟨rfl, rfl, rfl⟩
  · have hv : shipDependency shipDemo "A" "B" =
        .ok ⟨100, 40, ((40 : ℕ) : ℚ) / ((100 : ℕ) : ℚ) * 100⟩ := by rfl
    rw [hv]
    norm_num

/-- Witness for C5 on the 100-record demo dataset. -/
theorem shipDependency_spec_witness :
    ((shipDependency shipDemo "A" "B" = .error (.notFound "A") ↔
      shipDemo.filter (tagMatch "A") = []) ∧
    (∀ res, shipDependency shipDemo "A" "B" = .ok res →
      res.baseTotal = (shipDemo.filter (tagMatch "A")).length ∧
      res.jointCount =
        (shipDemo.filter (fun r => tagMatch "A" r && tagMatch "B" r)).length ∧
      res.percentage = (res.jointCount : ℚ) / (res.baseTotal : ℚ) * 100) ∧
    shipDependency shipDemo "A" "B" = .ok ⟨100, 40, 40⟩) :=
  shipDependency_spec shipDemo "A" "B" (by decide)

/-- Folding `Nat.min` over a list bounds the seed and every element. -/
theorem foldl_min_le (l : List Nat) :
    ∀ a : Nat, l.foldl Nat.min a ≤ a ∧ ∀ x ∈ l, l.foldl Nat.min a ≤ x := by
  induction l with
  | nil =>
    intro a
    exact ⟨Nat.le_refl a, by simp⟩
  | cons b t ih =>
    intro a
    have h := ih (Nat.min a b)
    refine ⟨h.1.trans (Nat.min_le_left a b), ?_⟩
    intro x hx
    rcases List.mem_cons.mp hx with rfl | hx
    · exact h.1.trans (Nat.min_le_right a x)
    · exact h.2 x hx

/-- Folding `Nat.max` over a list dominates the seed and every element. -/
theorem le_foldl_max (l : List Nat) :
    ∀ a : Nat, a ≤ l.foldl Nat.max a ∧ ∀ x ∈ l, x ≤ l.foldl Nat.max a := by
  induction l with
  | nil =>
    intro a
    exact ⟨Nat.le_refl a, by simp⟩
  | cons b t ih =>
    intro a
    have h := ih (Nat.max a b)
    refine ⟨(Nat.le_max_left a b).trans h.1, ?_⟩
    intro x hx
    rcases List.mem_cons.mp hx with rfl | hx
    · exact (Nat.le_max_right a x).trans h.1
    · exact h.2 x hx

/-- `listMin` is a lower bound of the list. -/
theorem listMin_le (l : List Nat) (x : Nat) (hx : x ∈ l) : listMin l ≤ x := by
  cases l with
  | nil => cases hx
  | cons a t =>
    rcases List.mem_cons.mp hx with rfl | hx
    · exact (foldl_min_le t x).1
    · exact (foldl_min_le t a).2 x hx

/-- `listMax` is an upper bound of the list. -/
theorem le_listMax (l : List Nat) (x : Nat) (hx : x ∈ l) : x ≤ listMax l := by
  cases l with
  | nil => cases hx
  | cons a t =>
    rcases List.mem_cons.mp hx with rfl | hx
    · exact (le_foldl_max t x).1
    · exact (le_foldl_max t a).2 x hx

/-- Pointwise sum split over a mapped list. -/
theorem sum_map_split (f g : Nat → Nat) (l : List Nat) :
    (l.map (fun i => f i + g i)).sum = (l.map f).sum + (l.map g).sum := by
  induction l with
  | nil => simp
  | cons a t ih =>
    simp only [List.map_cons, List.sum_cons, ih]
    omega

/-- A window of consecutive values hits a point inside it exactly once. -/
theorem sum_indicator_window (x lo : Nat) :
    ∀ n : Nat, lo ≤ x → x < lo + n →
      ((List.range n).map (fun i => if lo + i = x then 1 else 0)).sum = 1 := by
  intro n
  induction n with
  | zero =>
    intro h1 h2
    omega
  | succ n ih =>
    intro h1 h2
    rw [List.range_succ, List.map_append, List.sum_append]
    by_cases hx : x = lo + n
    · have hz : ((List.range n).map
          (fun i => if lo + i = x then 1 else 0)).sum = 0 := by
        apply List.sum_eq_zero
        intro y hy
        obtain ⟨i, hi, rfl⟩ := List.mem_map.mp hy
        have hin : i < n := List.mem_range.mp hi
        have : lo + i ≠ x := by omega
        simp [this]
      rw [hz]
      simp [hx]
    · have hlt : x < lo + n := by omega
      rw [ih h1 hlt]
      have hneq : lo + n ≠ x := by omega
      simp [hneq]

/-- Summing the per-value counts over a window covering the whole list
recovers the list's length. -/
theorem sum_count_window (lo n : Nat) :
    ∀ ms : List Nat, (∀ x ∈ ms, lo ≤ x ∧ x < lo + n) →
      ((List.range n).map (fun i => ms.count (lo + i))).sum = ms.length := by
  intro ms
  induction ms with
  | nil => simp
  | cons x t ih =>
    intro h
    have hx := h x (List.mem_cons_self x t)
    have ht : ∀ y ∈ t, lo ≤ y ∧ y < lo + n :=
      fun y hy => h y (List.mem_cons_of_mem x hy)
    have hcnt : ∀ i : Nat, (x :: t).count (lo + i) =
        t.count (lo + i) + (if lo + i = x then 1 else 0) := by
      intro i
      rw [List.count_cons]
      by_cases hxe : x = lo + i
      · simp [hxe]
      · have hxe2 : lo + i ≠ x := fun hh => hxe hh.symm
        simp [hxe, hxe2]
    have hmap : (List.range n).map (fun i => (x :: t).count (lo + i)) =
        (List.range n).map
          (fun i => t.count (lo + i) + (if lo + i = x then 1 else 0)) :=
      List.map_congr_left (fun i _ => hcnt i)
    rw [hmap, sum_map_split, ih ht, sum_indicator_window x lo n hx.1 hx.2]
    simp

/-- C6: on a non-empty record subset, the monthly buckets carry strictly
increasing month indices with no duplicates, and their counts add up to the
number of records. -/
theorem monthlyBuckets_spec (recs : List Record) (h : recs ≠ []) :
    (monthlyBuckets recs).Pairwise (fun a b => a.1 < b.1) ∧
    ((monthlyBuckets recs).map Prod.snd).sum = recs.length := by
  cases recs with
  | nil => exact absurd rfl h
  | cons r rs =>
    set ms := (r :: rs).map (fun x => monthIdx x.created_at) with hms
    set lo := listMin ms with hlo
    set hi := listMax ms with hhi
    have hunf : monthlyBuckets (r :: rs) =
        (List.range (hi + 1 - lo)).map
          (fun i => (lo + i, ms.count (lo + i))) := rfl
    have hmem0 : monthIdx r.created_at ∈ ms := by
      rw [hms]
      exact List.mem_map_of_mem _ (List.mem_cons_self r rs)
    have hbounds : ∀ x ∈ ms, lo ≤ x ∧ x < lo + (hi + 1 - lo) := by
      intro x hx
      have h1 := listMin_le ms x hx
      have h2 := le_listMax ms x hx
      have h3 := listMin_le ms _ hmem0
      have h4 := le_listMax ms _ hmem0
      rw [← hlo] at h1 h3
      rw [← hhi] at h2 h4
      omega
    constructor
    · rw [hunf, List.pairwise_map]
      exact (List.pairwise_lt_range (hi + 1 - lo)).imp
        (fun hab => Nat.add_lt_add_left hab lo)
    · rw [hunf, List.map_map]
      have hcomp : (Prod.snd ∘ fun i => (lo + i, ms.count (lo + i))) =
          fun i => ms.count (lo + i) := rfl
      rw [hcomp, sum_count_window lo (hi + 1 - lo) ms hbounds, hms]
      exact List.length_map _ _

/-- Witness for C6 on a two-record dataset spanning three months. -/
theorem monthlyBuckets_spec_witness :
    (monthlyBuckets monthDemo).Pairwise (fun a b => a.1 < b.1) ∧
    ((monthlyBuckets monthDemo).map Prod.snd).sum = monthDemo.length :=
  monthlyBuckets_spec monthDemo (by decide)

/-- C7: a successful comparison reports the substring-match totals of both
tags and never names as winner a tag whose total is strictly smaller than
the other's: a strictly larger first total yields the first tag, a strictly
larger second total yields the second tag. -/
theorem compare_winner_spec (recs : List Record) (c1 c2 : String)
    (res : CompareResult) (h : compareCharacters recs c1 c2 = .ok res) :
    res.total1 = (recs.filter (tagMatch c1)).length ∧
    res.total2 = (recs.filter (tagMatch c2)).length ∧
    (res.total2 < res.total1 → res.winner = c1) ∧
    (res.total1 < res.total2 → res.winner = c2) := by
  unfold compareCharacters at h
  by_cases h0 : recs.isEmpty = true
  · rw [if_pos h0] at h
    exact Except.noConfusion h
  · rw [if_neg h0] at h
    by_cases h1 : (recs.filter (tagMatch c1)).length = 0
    · rw [if_pos h1] at h
      exact Except.noConfusion h
    · rw [if_neg h1] at h
      by_cases h2 : (recs.filter (tagMatch c2)).length = 0
      · rw [if_pos h2] at h
        exact Except.noConfusion h
      · rw [if_neg h2, Except.ok.injEq] at h
        subst h
        refine ⟨rfl, rfl, ?_, ?_⟩
        · intro hlt
          simp only [CompareResult.total1, CompareResult.total2] at hlt
          simp only [CompareResult.winner]
          rw [if_pos hlt]
        · intro hlt
          simp only [CompareResult.total1, CompareResult.total2] at hlt
          simp only [CompareResult.winner]
          rw [if_neg (by omega)]

/-- Witness for C7 on the 100-versus-80 demo dataset. -/
theorem compare_winner_spec_witness :
    (⟨100, 80, "A"⟩ : CompareResult).total1 =
        (compareDemo.filter (tagMatch "A")).length ∧
    (⟨100, 80, "A"⟩ : CompareResult).total2 =
        (compareDemo.filter (tagMatch "B")).length ∧
    ((⟨100, 80, "A"⟩ : CompareResult).total2 <
        (⟨100, 80, "A"⟩ : CompareResult).total1 →
      (⟨100, 80, "A"⟩ : CompareResult).winner = "A") ∧
    ((⟨100, 80, "A"⟩ : CompareResult).total1 <
        (⟨100, 80, "A"⟩ : CompareResult).total2 →
      (⟨100, 80, "A"⟩ : CompareResult).winner = "B") :=
  compare_winner_spec compareDemo "A" "B" ⟨100, 80, "A"⟩ rfl

/-- C8: on the empty dataset state every one of the five tools immediately
reports unavailability. -/
theorem empty_dataset_fails_fast (year : Nat) (tag c1 c2 : String) :
    getTopWaifusByYear [] year = .error .datasetUnavailable ∧
    getCharacterStats [] tag = .error .datasetUnavailable ∧
    shipDependency [] c1 c2 = .error .datasetUnavailable ∧
    analyzeTagDriver [] year tag = .error .datasetUnavailable ∧
    compareCharacters [] c1 c2 = .error .datasetUnavailable :=
  ⟨rfl, rfl, rfl, rfl, rfl⟩

/-- C9: when both totals are equal, the comparison names the second tag as
winner (the tie falls through the strict `total1 > total2` test). -/
theorem compare_tie_second_wins (recs : List Record) (c1 c2 : String)
    (res : CompareResult) (h : compareCharacters recs c1 c2 = .ok res)
    (ht : res.total1 = res.total2) : res.winner = c2 := by
  unfold compareCharacters at h
  by_cases h0 : recs.isEmpty = true
  · rw [if_pos h0] at h
    exact Except.noConfusion h
  · rw [if_neg h0] at h
    by_cases h1 : (recs.filter (tagMatch c1)).length = 0
    · rw [if_pos h1] at h
      exact Except.noConfusion h
    · rw [if_neg h1] at h
      by_cases h2 : (recs.filter (tagMatch c2)).length = 0
      · rw [if_pos h2] at h
        exact Except.noConfusion h
      · rw [if_neg h2, Except.ok.injEq] at h
        subst h
        simp only [CompareResult.total1, CompareResult.total2] at ht
        simp only [CompareResult.winner]
        rw [if_neg (by omega)]

/-- Witness for C9 on the tied demo dataset. -/
theorem compare_tie_second_wins_witness :
    compareCharacters tieDemo "A" "B" = .ok ⟨4, 4, "B"⟩ ∧
    (⟨4, 4, "B"⟩ : CompareResult).winner = "B" :=
  ⟨rfl, compare_tie_second_wins tieDemo "A" "B" ⟨4, 4, "B"⟩ rfl rfl⟩

/-- The empty needle is a substring of every character list. -/
theorem containsSub_nil (l : List Char) : containsSub [] l = true := by
  cases l with
  | nil => rfl
  | cons c t => rfl

/-- The empty pattern matches every record that has a tag string. -/
theorem tagMatch_empty (r : Record) : tagMatch "" r = r.tag_string.isSome := by
  cases hr : r.tag_string with
  | none => simp [tagMatch, hr]
  | some s =>
    simp only [tagMatch, hr, Option.isSome_some]
    exact containsSub_nil s.toList

/-- C10: the minimum-length rule exists but is never consulted: the empty
tag (length 0 < 2) flows straight into substring matching, where it selects
exactly the records with a non-null tag string, so EntityStats,
CoOccurrence and Compare all succeed with whole-dataset totals instead of
reporting an input error. -/
theorem no_length_validation (recs : List Record)
    (h : recs.filter (fun r => r.tag_string.isSome) ≠ []) :
    tagInputValid "" = false ∧
    recs.filter (tagMatch "") = recs.filter (fun r => r.tag_string.isSome) ∧
    (∃ s, getCharacterStats recs "" = .ok s ∧
      s.total = (recs.filter (fun r => r.tag_string.isSome)).length) ∧
    (∃ sh, shipDependency recs "" "" = .ok sh ∧
      sh.baseTotal = (recs.filter (fun r => r.tag_string.isSome)).length) ∧
    (∃ c, compareCharacters recs "" "" = .ok c ∧
      c.total1 = (recs.filter (fun r => r.tag_string.isSome)).length ∧
      c.total2 = c.total1) := by
  have hfeq : recs.filter (tagMatch "") =
      recs.filter (fun r => r.tag_string.isSome) :=
    List.filter_congr (fun r _ => tagMatch_empty r)
  have hne : recs ≠ [] := by
    intro h0
    rw [h0] at h
    exact h rfl
  have hie : ¬(recs.isEmpty = true) := by simpa using hne
  have hse : ¬((recs.filter (tagMatch "")).isEmpty = true) := by
    rw [hfeq]
    simpa using h
  have hlen : ¬((recs.filter (tagMatch "")).length = 0) := by
    intro h0
    exact hse (by simpa using List.length_eq_zero.mp h0)
  refine ⟨rfl, hfeq, ?_, ?_, ?_⟩
  · have hstats : getCharacterStats recs "" =
        .ok ⟨(recs.filter (tagMatch "")).length,
          peakBucket (monthlyBuckets (recs.filter (tagMatch ""))),
          if 20 <
              ((monthlyBuckets (recs.filter (tagMatch ""))).getLastD (0, 0)).2
          then "Still Active" else "Declining"⟩ := by
      unfold getCharacterStats
      rw [if_neg hie, if_neg hse]
    exact ⟨_, hstats, congrArg List.length hfeq⟩
  · have hship : shipDependency recs "" "" =
        .ok ⟨(recs.filter (tagMatch "")).length,
          (recs.filter (fun r => tagMatch "" r && tagMatch "" r)).length,
          ((recs.filter (fun r => tagMatch "" r && tagMatch "" r)).length : ℚ) /
            ((recs.filter (tagMatch "")).length : ℚ) * 100⟩ := by
      unfold shipDependency
      rw [if_neg hie, if_neg hse]
    exact ⟨_, hship, congrArg List.length hfeq⟩
  · have hcomp : compareCharacters recs "" "" =
        .ok ⟨(recs.filter (tagMatch "")).length,
          (recs.filter (tagMatch "")).length,
          if (recs.filter (tagMatch "")).length <
              (recs.filter (tagMatch "")).length
          then "" else ""⟩ := by
      unfold compareCharacters
      rw [if_neg hie, if_neg hlen, if_neg hlen]
    exact ⟨_, hcomp, congrArg List.length hfeq, rfl⟩

/-- Witness for C10 on a one-record dataset. -/
theorem no_length_validation_witness :
    tagInputValid "" = false ∧
    singletonDemo.filter (tagMatch "") =
      singletonDemo.filter (fun r => r.tag_string.isSome) ∧
    (∃ s, getCharacterStats singletonDemo "" = .ok s ∧
      s.total =
        (singletonDemo.filter (fun r => r.tag_string.isSome)).length) ∧
    (∃ sh, shipDependency singletonDemo "" "" = .ok sh ∧
      sh.baseTotal =
        (singletonDemo.filter (fun r => r.tag_string.isSome)).length) ∧
    (∃ c, compareCharacters singletonDemo "" "" = .ok c ∧
      c.total1 =
        (singletonDemo.filter (fun r => r.tag_string.isSome)).length ∧
      c.total2 = c.total1) :=
  no_length_validation singletonDemo (by decide)
